import Mathlib

/-!
Shallow embedding of the safety-critical core of the Capstone X-ray imaging
repository, together with proofs about it.

Conventions.

* All physical times (shutter durations, poll periods, timestamps) are modeled
  in exact integer milliseconds (`ℤ`); the source stores them as float seconds.
  Comparisons and interval arithmetic are preserved exactly by this choice.
* Interlock readings (`Interlocks.all_ok()` in src/xavier/interlock.py) are an
  oracle `σ : ℕ → Bool`; a command that consults the interlocks `k` times reads
  `σ i, σ (i+1), …` and returns the next unread index, so a sequence of
  commands threads one oracle through all its polls.
* Hardware writes and sleeps performed by a command are recorded in an explicit
  action trace (`Act`); the controller state carried between commands holds the
  state-machine state, the three output lines, and the preview deadline.
* Calls that only log, drive LEDs, or push GUI notifications
  (`_log`, `_apply_leds`, `_notify`) read no inputs that influence control flow
  and write none of the modeled outputs, so they are not modeled.
-/

namespace Xavier

/-- Controller states, from `class State` in src/xavier/controller.py. -/
inductive State where
  | IDLE
  | ARMED
  | EXPOSE
  | PREVIEW
  | FAULT
deriving DecidableEq

/-- The three output lines the controller writes: the HV relay channel
(`relays.write_channel(hv_channel, ·)`), the camera trigger line
(`pins.cam_trigger`) and the camera preview-enable line (`pins.cam_preview`). -/
structure Outputs where
  hv : Bool
  cam_trigger : Bool
  cam_preview : Bool
deriving DecidableEq

/-- Controller fields mutated by the public API of `class Controller`:
`self.state`, the output lines, and `self._preview_deadline` (ms). -/
structure Ctrl where
  state : State
  out : Outputs
  preview_deadline : Option ℤ
deriving DecidableEq

/-- Output/timing actions a command performs, in program order.
`setState` records assignments to `self.state`; the others are hardware
writes and sleeps. -/
inductive Act where
  | setHV (b : Bool)
  | setTrigger (b : Bool)
  | setPreviewLine (b : Bool)
  | setState (s : State)
  | sleepFor (ms : ℤ)
deriving DecidableEq

/-- Poll period of the exposure loop, `time.sleep(0.005)`, in ms. -/
def tickMs : ℤ := 5

/-- The 0.2 s settling pause inside `Controller._hv_off`, in ms. -/
def hvOffSettleMs : ℤ := 200

/-- The timing configuration consumed by `expose` (`Config.timing`), in ms. -/
structure Timing where
  pre_roll_ms : ℤ
  post_hold_ms : ℤ
deriving DecidableEq

/-- `Controller.arm` (controller.py lines 66-69): rejected in FAULT, rejected
when the interlocks are not ok, otherwise sets `self.state = State.ARMED` and
returns True.  `ok` is the `all_ok()` reading taken by the call. -/
def arm (c : Ctrl) (ok : Bool) : Bool × Ctrl :=
  if c.state = State.FAULT then (false, c)
  else if !ok then (false, c)
  else (true, { c with state := State.ARMED })

/-- `Controller.disarm` (lines 71-78): de-energize HV, clear both camera
lines; when not in FAULT also return to IDLE and drop the preview deadline. -/
def disarm (c : Ctrl) : Ctrl :=
  let c1 : Ctrl := { c with out := { hv := false, cam_trigger := false, cam_preview := false } }
  if c1.state ≠ State.FAULT then
    { c1 with state := State.IDLE, preview_deadline := none }
  else c1

/-- `Controller.reset_fault` (lines 128-131): only acts in FAULT, requires
`all_ok()`, then returns to IDLE. -/
def reset_fault (c : Ctrl) (ok : Bool) : Bool × Ctrl :=
  if c.state ≠ State.FAULT then (false, c)
  else if !ok then (false, c)
  else (true, { c with state := State.IDLE })

/-- Writes performed by `Controller._fault` (lines 196-202), in program order:
HV relay off, camera trigger cleared, preview line cleared, then the state
assignment to FAULT. -/
def faultActs : List Act :=
  [Act.setHV false, Act.setTrigger false, Act.setPreviewLine false, Act.setState State.FAULT]

/-- Writes performed by `Controller._hv_off` (lines 139-141): relay off then a
0.2 s settle sleep. -/
def hvOffActs : List Act := [Act.setHV false, Act.sleepFor hvOffSettleMs]

/-- Writes performed on an interlock failure inside the exposure loop
(lines 96-98): `_hv_off()`, clear the trigger, then `_fault(...)`. -/
def loopFaultActs : List Act := hvOffActs ++ [Act.setTrigger false] ++ faultActs

/-- Iteration count of `while (time.time() - t0) < shutter_s` in `expose`:
the k-th iteration starts at elapsed time `k · tickMs`, so the body runs for
exactly the `k` with `k · tickMs < shutter`, i.e. `⌈shutter / tickMs⌉` times
(0 when the shutter time is not positive, though `expose` rejects that). -/
def expTicks (shutterMs : ℤ) : ℕ := (shutterMs.toNat + 4) / 5

/-- Result of an `expose` call: the Python function either raises `ValueError`
or returns a Bool. -/
inductive ExposeOutcome where
  | valueError
  | done (ret : Bool)
deriving DecidableEq

/-- Everything produced by one `expose` call: its outcome, the controller
fields after the call, the action trace, and the next unread oracle index. -/
structure ExposeRes where
  outcome : ExposeOutcome
  ctrl : Ctrl
  acts : List Act
  nextIdx : ℕ
deriving DecidableEq

/-- The exposure poll loop (lines 95-99).  Reads `σ j, σ (j+1), …`, one per
tick; returns (completed without interlock failure?, actions, readings
consumed).  On a bad reading it performs `loopFaultActs` and stops. -/
def exposeLoop (σ : ℕ → Bool) : ℕ → ℕ → Bool × List Act × ℕ
  | _, 0 => (true, [], 0)
  | j, n + 1 =>
    if σ j then
      let r := exposeLoop σ (j + 1) n
      (r.1, Act.sleepFor tickMs :: r.2.1, r.2.2 + 1)
    else
      (false, loopFaultActs, 1)

/-- Body of `Controller.expose` from line 87 on, entered with the guards of
lines 81-85 already passed and `self.state ∈ {IDLE, ARMED}` resolved:
`armActs` is the trace of the auto-`arm()` (line 85) and `σ j` is the
`all_ok()` reading taken by `_hv_on` (line 90). -/
def exposeMain (T : Timing) (c : Ctrl) (σ : ℕ → Bool) (armActs : List Act) (j : ℕ)
    (shutterMs : ℤ) (fire : Bool) : ExposeRes :=
  if σ j then
    let r := exposeLoop σ (j + 1) (expTicks shutterMs)
    if r.1 then
      { outcome := ExposeOutcome.done true,
        ctrl := { state := State.IDLE, out := ⟨false, false, false⟩, preview_deadline := none },
        acts := armActs ++ [Act.setState State.EXPOSE, Act.setHV true, Act.sleepFor T.pre_roll_ms]
            ++ (if fire then [Act.setTrigger true] else []) ++ r.2.1
            ++ (if fire then [Act.setTrigger false] else [])
            ++ [Act.sleepFor T.post_hold_ms] ++ hvOffActs ++ hvOffActs
            ++ [Act.setTrigger false, Act.setPreviewLine false, Act.setState State.IDLE],
        nextIdx := j + 1 + r.2.2 }
    else
      { outcome := ExposeOutcome.done false,
        ctrl := { c with state := State.FAULT, out := ⟨false, false, false⟩ },
        acts := armActs ++ [Act.setState State.EXPOSE, Act.setHV true, Act.sleepFor T.pre_roll_ms]
            ++ (if fire then [Act.setTrigger true] else []) ++ r.2.1,
        nextIdx := j + 1 + r.2.2 }
  else
    { outcome := ExposeOutcome.done false,
      ctrl := { c with state := State.FAULT, out := ⟨false, false, false⟩ },
      acts := armActs ++ [Act.setState State.EXPOSE] ++ faultActs,
      nextIdx := j + 1 }

/-- `Controller.expose` (lines 80-106).  Guards in source order: the
`shutter_s <= 0` ValueError, the FAULT check, the state check, the entry
`all_ok()` poll (`σ i`), the auto-`arm()` from IDLE (which re-polls at
`σ (i+1)`), then `exposeMain`. -/
def expose (T : Timing) (c : Ctrl) (σ : ℕ → Bool) (i : ℕ) (shutterMs : ℤ) (fire : Bool) :
    ExposeRes :=
  if shutterMs ≤ 0 then
    { outcome := ExposeOutcome.valueError, ctrl := c, acts := [], nextIdx := i }
  else if c.state = State.FAULT then
    { outcome := ExposeOutcome.done false, ctrl := c, acts := [], nextIdx := i }
  else if ¬(c.state = State.ARMED ∨ c.state = State.IDLE) then
    { outcome := ExposeOutcome.done false, ctrl := c, acts := [], nextIdx := i }
  else if σ i then
    if c.state = State.IDLE then
      if σ (i + 1) then
        exposeMain T { c with state := State.ARMED } σ [Act.setState State.ARMED] (i + 2)
          shutterMs fire
      else
        { outcome := ExposeOutcome.done false, ctrl := c, acts := [], nextIdx := i + 2 }
    else
      exposeMain T c σ [] (i + 1) shutterMs fire
  else
    { outcome := ExposeOutcome.done false, ctrl := c, acts := [], nextIdx := i + 1 }

/-- Tail of `Controller.start_preview` from line 113 on: `_hv_on` polls
`σ j`; on failure `_fault` runs; on success the preview line is raised, the
state becomes PREVIEW and the deadline is set.  Python's
`time.time() + max_seconds if max_seconds else None` treats both `None` and
`0` as "no deadline". -/
def startPreviewMain (c : Ctrl) (σ : ℕ → Bool) (j : ℕ) (max_ms : Option ℤ) (now : ℤ) :
    Bool × Ctrl × ℕ :=
  if σ j then
    (true,
      { state := State.PREVIEW,
        out := { hv := true, cam_trigger := c.out.cam_trigger, cam_preview := true },
        preview_deadline :=
          match max_ms with
          | none => none
          | some m => if m = 0 then none else some (now + m) },
      j + 1)
  else
    (false, { c with state := State.FAULT, out := ⟨false, false, false⟩ }, j + 1)

/-- `Controller.start_preview` (lines 108-118), with the same guard structure
as `expose` (FAULT, state, entry poll, auto-arm re-poll). -/
def start_preview (c : Ctrl) (σ : ℕ → Bool) (i : ℕ) (max_ms : Option ℤ) (now : ℤ) :
    Bool × Ctrl × ℕ :=
  if c.state = State.FAULT then (false, c, i)
  else if ¬(c.state = State.ARMED ∨ c.state = State.IDLE) then (false, c, i)
  else if σ i then
    if c.state = State.IDLE then
      if σ (i + 1) then
        startPreviewMain { c with state := State.ARMED } σ (i + 2) max_ms now
      else (false, c, i + 2)
    else
      startPreviewMain c σ (i + 1) max_ms now
  else (false, c, i + 1)

/-- `Controller.stop_preview` (lines 120-126): only acts in PREVIEW; clears
the preview line, de-energizes HV, then runs `disarm()` and drops the
deadline. -/
def stop_preview (c : Ctrl) : Ctrl :=
  if c.state = State.PREVIEW then
    let c1 : Ctrl :=
      { c with out := { hv := false, cam_trigger := c.out.cam_trigger, cam_preview := false } }
    { disarm c1 with preview_deadline := none }
  else c

/-- External command surface of the controller (api.py / §6 of the design). -/
inductive Cmd where
  | armCmd
  | disarmCmd
  | exposeCmd (shutterMs : ℤ) (fire : Bool)
  | previewCmd (max_ms : Option ℤ) (now : ℤ)
  | stopPreviewCmd
  | resetFaultCmd

/-- One controller command against the interlock oracle; returns the new
controller fields and the next unread oracle index.  `arm` and `reset_fault`
poll the interlocks exactly once, and only when their state guard passes. -/
def step (T : Timing) (c : Ctrl) (σ : ℕ → Bool) (i : ℕ) : Cmd → Ctrl × ℕ
  | Cmd.armCmd =>
    if c.state = State.FAULT then ((arm c (σ i)).2, i) else ((arm c (σ i)).2, i + 1)
  | Cmd.disarmCmd => (disarm c, i)
  | Cmd.exposeCmd s f =>
    let r := expose T c σ i s f
    (r.ctrl, r.nextIdx)
  | Cmd.previewCmd m now =>
    let r := start_preview c σ i m now
    (r.2.1, r.2.2)
  | Cmd.stopPreviewCmd => (stop_preview c, i)
  | Cmd.resetFaultCmd =>
    if c.state = State.FAULT then ((reset_fault c (σ i)).2, i + 1)
    else ((reset_fault c (σ i)).2, i)

/-- A sequence of controller commands. -/
def runCmds (T : Timing) : Ctrl → (ℕ → Bool) → ℕ → List Cmd → Ctrl × ℕ
  | c, _, i, [] => (c, i)
  | c, σ, i, cmd :: rest =>
    let r := step T c σ i cmd
    runCmds T r.1 σ r.2 rest

/-- Controller fields right after `Controller.__init__`: state IDLE, all
modeled output lines low, no preview deadline. -/
def initCtrl : Ctrl :=
  { state := State.IDLE, out := ⟨false, false, false⟩, preview_deadline := none }

end Xavier

namespace HvKillDaemon

/-!
Embedding of src/hv_kill_daemon.py, the process-isolated HV watchdog.
The world it observes each poll: the HV relay pin (it both reads and writes
it), the heartbeat file content (`none` = file missing or unreadable, matching
the `except` branch of `gui_is_alive`), and the presence of the shutdown-flag
file.  Timestamps are in ms.
-/

/-- `HEARTBEAT_TIMEOUT = 1.0` s, in ms. -/
def HEARTBEAT_TIMEOUT : ℤ := 1000

/-- State of the files and the HV pin as seen by one daemon poll. -/
structure World where
  hv : Bool
  hb : Option ℤ
  flag : Bool
deriving DecidableEq

/-- `force_hv_off()`: `GPIO.output(HV_PIN, GPIO.LOW)`. -/
def force_hv_off (w : World) : World := { w with hv := false }

/-- `gui_is_alive()`: False when the heartbeat file is missing or unreadable,
otherwise `now - ts < HEARTBEAT_TIMEOUT`. -/
def gui_is_alive (now : ℤ) (hb : Option ℤ) : Bool :=
  match hb with
  | none => false
  | some ts => decide (now - ts < HEARTBEAT_TIMEOUT)

/-- Daemon start-up (lines 49-91): `GPIO.setup(HV_PIN, GPIO.OUT,
initial=GPIO.LOW)` followed by `force_hv_off()`, both before the main loop is
entered. -/
def daemonStartup (w : World) : World := force_hv_off { w with hv := false }

/-- The levels written to the HV pin during start-up, in program order: LOW by
the `GPIO.setup(..., initial=GPIO.LOW)` and LOW again by `force_hv_off()`.
These are the first actions the daemon takes on the relay. -/
def startupHVWrites : List Bool := [false, false]

/-- One iteration of the daemon main loop (lines 97-136): read liveness,
shutdown flag and the pin; CASE 1 (heartbeat lost, no flag) forces the pin
low and latches `hv_allowed := False`; CASE 2 (heartbeat present, no flag)
re-allows; CASE 3 re-enforces the rule on the pin value read at the top.
Returns `(hv_allowed', world')`. -/
def daemonStep (hv_allowed : Bool) (now : ℤ) (w : World) : Bool × World :=
  let alive := gui_is_alive now w.hb
  let shutdown_mode := w.flag
  let hv_state := w.hv
  let p1 : Bool × World :=
    if !alive then
      if shutdown_mode then (hv_allowed, w)
      else (false, if hv_state then force_hv_off w else w)
    else
      if !shutdown_mode then (true, w) else (hv_allowed, w)
  if hv_state && !p1.1 then (p1.1, force_hv_off p1.2) else p1

end HvKillDaemon

namespace StepperMotor

/-!
Embedding of src/xavier/stepper_Motor.py.  Axis 1 (tray) is driven by serial
step commands to an Arduino and stopped by limit-switch polls; Axis 3
(rotation stage) is a ULN2003 half-stepped motor with a software step
counter and no absolute sensor.
-/

/-- Serial commands the Arduino understands for motor 1. -/
inductive M1Cmd where
  | M1F
  | M1B
deriving DecidableEq

/-- `motor1_forward_until_switch2` (lines 29-37): while `GPIO.input(SW2) == 1`
(1 = not pressed) write `b"M1F\n"` and sleep.  `sw2 k` is the k-th limit-switch
poll; `fuel` bounds the modeled observation window (the source loop runs until
the switch reads pressed).  `homed3` is the Axis-3 homed status at call time:
the source consults no such state, so the argument is unused — exactly the
absence of the cross-axis guard. -/
def motor1_forward_until_switch2 (homed3 : Bool) (sw2 : ℕ → Bool) : ℕ → ℕ → List M1Cmd
  | _, 0 => []
  | k, fuel + 1 =>
    if sw2 k then M1Cmd.M1F :: motor1_forward_until_switch2 homed3 sw2 (k + 1) fuel
    else []

/-- `motor1_backward_until_switch1` (lines 40-48), same shape with `M1B` and
switch 1. -/
def motor1_backward_until_switch1 (homed3 : Bool) (sw1 : ℕ → Bool) : ℕ → ℕ → List M1Cmd
  | _, 0 => []
  | k, fuel + 1 =>
    if sw1 k then M1Cmd.M1B :: motor1_backward_until_switch1 homed3 sw1 (k + 1) fuel
    else []

/-- Coil events of motor 3. -/
inductive M3Ev where
  | stepF
  | stepB
  | coilsOff
deriving DecidableEq

/-- Module state of motor 3: `m3_index` (position in the 8-entry half-step
table) and `m3_total_steps` (net steps forward from home). -/
structure M3 where
  m3_index : ℕ
  m3_total_steps : ℕ
deriving DecidableEq

/-- `M3_STEPS_45 = 512`. -/
def M3_STEPS_45 : ℕ := 512

/-- `motor3_step_forward` (lines 141-148): `m3_index = (m3_index + 1) % 8`. -/
def motor3_step_forward (s : M3) : M3 := { s with m3_index := (s.m3_index + 1) % 8 }

/-- `motor3_step_backward` (lines 154-161): `m3_index = (m3_index - 1) % 8`;
Python's floor-mod on `-1` equals adding 7 mod 8. -/
def motor3_step_backward (s : M3) : M3 := { s with m3_index := (s.m3_index + 7) % 8 }

/-- `motor3_rotate_45` (lines 167-181): 512 forward steps, add 512 to
`m3_total_steps`, then turn all coils off. -/
def motor3_rotate_45 (s : M3) : M3 × List M3Ev :=
  let s1 := motor3_step_forward^[M3_STEPS_45] s
  ({ s1 with m3_total_steps := s1.m3_total_steps + M3_STEPS_45 },
    List.replicate M3_STEPS_45 M3Ev.stepF ++ [M3Ev.coilsOff])

/-- `motor3_home` (lines 188-203): exactly `m3_total_steps` backward steps,
coils off, then `m3_total_steps = 0`. -/
def motor3_home (s : M3) : M3 × List M3Ev :=
  let s1 := motor3_step_backward^[s.m3_total_steps] s
  ({ s1 with m3_total_steps := 0 },
    List.replicate s.m3_total_steps M3Ev.stepB ++ [M3Ev.coilsOff])

/-- A sequence of `n` consecutive `motor3_rotate_45()` calls, with the
concatenated event log. -/
def rotN : ℕ → M3 → M3 × List M3Ev
  | 0, s => (s, [])
  | n + 1, s =>
    let r := motor3_rotate_45 s
    let r2 := rotN n r.1
    (r2.1, r.2 ++ r2.2)

end StepperMotor

namespace Interface

/-!
Embedding of the pieces of src/Interface_Capstone/Interface.py the claims
touch: the heartbeat writer and the tray-close handler.
-/

open StepperMotor

/-- Filesystem operations, enough to distinguish an in-place write from a
write-temp-then-rename sequence. -/
inductive FileOp where
  | writeFile (path : String) (content : String)
  | renameFile (src dst : String)
deriving DecidableEq

/-- `HEARTBEAT_FILE` path shared by the GUI and the daemon. -/
def HEARTBEAT_PATH : String := "/tmp/xray_heartbeat"

/-- `send_heartbeat` (Interface.py lines 369-374):
`open("/tmp/xray_heartbeat", "w")` followed by `f.write(str(time.time()))` —
a single direct write of the timestamp into the heartbeat path. -/
def send_heartbeat (ts : String) : List FileOp := [FileOp.writeFile HEARTBEAT_PATH ts]

/-- Modelled from the spec: "written atomically (write-temp + rename)".  A
trace is an atomic heartbeat write when some rename lands on the heartbeat
path and no plain write touches the heartbeat path directly. -/
def spec_atomic_heartbeat_write (ops : List FileOp) : Bool :=
  (ops.any fun op =>
    match op with
    | FileOp.renameFile _ dst => dst == HEARTBEAT_PATH
    | _ => false) &&
  (ops.all fun op =>
    match op with
    | FileOp.writeFile p _ => !(p == HEARTBEAT_PATH)
    | _ => true)

/-- `on_close` (Interface.py lines 597-609): returns untouched when
`hv_fault_active`, otherwise drives motor 1 forward until switch 2 — with no
check of the Axis-3 home state (`homed3` is passed through unused). -/
def on_close (hv_fault_active : Bool) (homed3 : Bool) (sw2 : ℕ → Bool) (fuel : ℕ) :
    List M1Cmd :=
  if hv_fault_active then [] else motor1_forward_until_switch2 homed3 sw2 0 fuel

end Interface

namespace Xavier

/-- Replay of an action trace to answer "what does the HV line hold at
absolute time `t`": execution starts at time 0, sleeps advance the clock, and
a `setHV` write takes effect from its instant on.  Writes at instants after
`t` leave the answer unchanged. -/
def hvAtAux : List Act → ℤ → Bool → ℤ → Bool
  | [], _, hv, _ => hv
  | Act.setHV b :: rest, clk, hv, t => hvAtAux rest clk (if clk ≤ t then b else hv) t
  | Act.sleepFor d :: rest, clk, hv, t => hvAtAux rest (clk + d) hv t
  | Act.setTrigger _ :: rest, clk, hv, t => hvAtAux rest clk hv t
  | Act.setPreviewLine _ :: rest, clk, hv, t => hvAtAux rest clk hv t
  | Act.setState _ :: rest, clk, hv, t => hvAtAux rest clk hv t

/-- HV line at time `t` under a trace that begins at time 0 with HV
de-energized. -/
def hvAt (tr : List Act) (t : ℤ) : Bool := hvAtAux tr 0 false t

/-- The action trace of a successful `expose` call with `fire_camera_gpio`
left at its default True: the optional auto-arm, the state change to EXPOSE,
HV on, the pre-roll sleep, trigger up, `N` interlock-polled ticks, trigger
down, the post-hold sleep, HV off (twice: line 103 and the `disarm()` of
line 104), and the return to IDLE. -/
def exposeSuccessActs (T : Timing) (fromIdle : Bool) (N : ℕ) : List Act :=
  (if fromIdle then [Act.setState State.ARMED] else []) ++
    [Act.setState State.EXPOSE, Act.setHV true, Act.sleepFor T.pre_roll_ms,
      Act.setTrigger true] ++
    List.replicate N (Act.sleepFor tickMs) ++
    [Act.setTrigger false, Act.sleepFor T.post_hold_ms] ++ hvOffActs ++ hvOffActs ++
    [Act.setTrigger false, Act.setPreviewLine false, Act.setState State.IDLE]

end Xavier

namespace Xavier

/-- Claim C1, evaluated at the failing input: after the command sequence
`arm(); start_preview(); arm()` with every interlock poll ok, the controller
sits in state ARMED with the HV relay still energized — `arm()`'s guard
rejects only FAULT (controller.py line 67), so called from PREVIEW it moves
the state to ARMED without de-energizing HV, violating "HV is HIGH only while
the state is in {Expose, Preview}". -/
theorem hv_energized_in_armed_after_preview_then_arm :
    ((runCmds ⟨0, 0⟩ initCtrl (fun _ => true) 0
        [Cmd.armCmd, Cmd.previewCmd none 0, Cmd.armCmd]).1.state = State.ARMED) ∧
    ((runCmds ⟨0, 0⟩ initCtrl (fun _ => true) 0
        [Cmd.armCmd, Cmd.previewCmd none 0, Cmd.armCmd]).1.out.hv = true) := by
  decide

/-- Claim C6: `reset_fault()` called in FAULT succeeds and transitions to IDLE
iff the `all_ok()` reading at call time is true; on a false reading it returns
failure, the state remains FAULT, and the HV output (OFF in FAULT) stays
OFF. -/
theorem reset_fault_iff_interlocks (c : Ctrl) (ok : Bool)
    (hF : c.state = State.FAULT) (hHV : c.out.hv = false) :
    (((reset_fault c ok).1 = true ∧ (reset_fault c ok).2.state = State.IDLE) ↔ ok = true) ∧
    (ok = false →
      reset_fault c ok = (false, c) ∧ (reset_fault c ok).2.state = State.FAULT ∧
        (reset_fault c ok).2.out.hv = false) := by
  cases ok <;> simp [reset_fault, hF, hHV]

/-- Witness for the C6 theorem at a concrete faulted controller. -/
theorem reset_fault_iff_interlocks_witness :
    ((((reset_fault ⟨State.FAULT, ⟨false, false, false⟩, none⟩ false).1 = true ∧
          (reset_fault ⟨State.FAULT, ⟨false, false, false⟩, none⟩ false).2.state = State.IDLE) ↔
        false = true) ∧
      (false = false →
        reset_fault ⟨State.FAULT, ⟨false, false, false⟩, none⟩ false =
            (false, ⟨State.FAULT, ⟨false, false, false⟩, none⟩) ∧
          (reset_fault ⟨State.FAULT, ⟨false, false, false⟩, none⟩ false).2.state = State.FAULT ∧
          (reset_fault ⟨State.FAULT, ⟨false, false, false⟩, none⟩ false).2.out.hv = false)) :=
  reset_fault_iff_interlocks ⟨State.FAULT, ⟨false, false, false⟩, none⟩ false rfl rfl

/-- Claim C7, counterexample: from PREVIEW with an ok interlock reading,
`arm()` returns success and changes the state to ARMED — a state change other
than Idle → Armed, in a case where the claim demands failure with no state
change. -/
theorem arm_succeeds_from_preview :
    (arm ⟨State.PREVIEW, ⟨true, false, true⟩, none⟩ true).1 = true ∧
    (arm ⟨State.PREVIEW, ⟨true, false, true⟩, none⟩ true).2.state = State.ARMED := by
  decide

/-- Claim C7, amended: `arm()` returns failure with no state change iff the
state is FAULT or the `all_ok()` reading is false; otherwise it returns
success and sets the state to ARMED from whatever non-FAULT state it was
called in (from IDLE this is the Idle → Armed transition). -/
theorem arm_behaviour (c : Ctrl) (ok : Bool) :
    arm c ok =
      if c.state = State.FAULT ∨ ok = false then (false, c)
      else (true, { c with state := State.ARMED }) := by
  rcases c with ⟨st, o, d⟩
  cases ok <;> cases st <;> simp [arm]

/-- Claim C8: `disarm()` is idempotent, always de-energizes HV and clears both
camera lines, returns to IDLE from every state except FAULT, and leaves FAULT
as FAULT. -/
theorem disarm_idempotent_and_clears (c : Ctrl) :
    disarm (disarm c) = disarm c ∧
    (disarm c).out = ⟨false, false, false⟩ ∧
    (disarm c).state = if c.state = State.FAULT then State.FAULT else State.IDLE := by
  by_cases h : c.state = State.FAULT <;> simp [disarm, h]

/-- Claim C10: for every `shutter_s ≤ 0`, `expose` raises `ValueError` as its
very first action: no interlock poll is consumed, no hardware action is
performed, and the controller fields are unchanged. -/
theorem expose_rejects_nonpositive_shutter (T : Timing) (c : Ctrl) (σ : ℕ → Bool) (i : ℕ)
    (shutterMs : ℤ) (fire : Bool) (h : shutterMs ≤ 0) :
    expose T c σ i shutterMs fire =
      { outcome := ExposeOutcome.valueError, ctrl := c, acts := [], nextIdx := i } := by
  simp [expose, h]

/-- Witness for the C10 theorem at shutter −250 ms. -/
theorem expose_rejects_nonpositive_shutter_witness :
    expose ⟨100, 100⟩ initCtrl (fun _ => true) 0 (-250) true =
      { outcome := ExposeOutcome.valueError, ctrl := initCtrl, acts := [], nextIdx := 0 } :=
  expose_rejects_nonpositive_shutter ⟨100, 100⟩ initCtrl (fun _ => true) 0 (-250) true
    (by decide)

end Xavier

namespace HvKillDaemon

/-- Claim C2: whenever every heartbeat timestamp on file is stale by at least
`HEARTBEAT_TIMEOUT` (or the file is missing/unreadable) and the shutdown flag
is absent, one iteration of the daemon loop leaves the HV pin LOW — whatever
the pin and the `hv_allowed` latch held before; and at start-up, before the
loop runs, the daemon forces HV OFF from any prior pin state (its first two
pin actions both write LOW).  The daemon reads only files and the pin, so no
controller process needs to exist. -/
theorem daemon_forces_hv_low (a : Bool) (now : ℤ) (w : World)
    (hstale : ∀ ts, w.hb = some ts → HEARTBEAT_TIMEOUT ≤ now - ts)
    (hflag : w.flag = false) :
    (daemonStep a now w).2.hv = false ∧
    (∀ w0 : World, (daemonStartup w0).hv = false) ∧
    startupHVWrites ≠ [] ∧ (∀ b ∈ startupHVWrites, b = false) := by
  refine ⟨?_, ?_, ?_, ?_⟩
  · have halive : gui_is_alive now w.hb = false := by
      cases hhb : w.hb with
      | none => simp [gui_is_alive]
      | some ts =>
        have := hstale ts hhb
        simp only [gui_is_alive, decide_eq_false_iff_not, not_lt]
        exact this
    cases hw : w.hv <;>
      simp [daemonStep, halive, hflag, hw, force_hv_off]
  · intro w0; simp [daemonStartup, force_hv_off]
  · simp [startupHVWrites]
  · decide

/-- Witness for the C2 theorem: pin HIGH, heartbeat written at t = 0 ms,
polled at t = 2000 ms, no shutdown flag. -/
theorem daemon_forces_hv_low_witness :
    ((daemonStep true 2000 ⟨true, some 0, false⟩).2.hv = false ∧
      (∀ w0 : World, (daemonStartup w0).hv = false) ∧
      startupHVWrites ≠ [] ∧ (∀ b ∈ startupHVWrites, b = false)) :=
  daemon_forces_hv_low true 2000 ⟨true, some 0, false⟩
    (by intro ts h; injection h with h2; rw [HEARTBEAT_TIMEOUT]; omega) rfl

end HvKillDaemon

namespace Interface

open StepperMotor

/-- Claim C4, evaluated at the failing input: Axis 3 not homed, no HV fault,
close-limit switch open for the first three polls — the tray-close handler
emits three `M1F` serial step commands.  Neither `on_close` nor
`motor1_forward_until_switch2` consults any Axis-3 home state, so Axis-1
motion is not rejected and hardware activity occurs. -/
theorem tray_close_steps_without_axis3_home :
    on_close false false (fun k => decide (k < 3)) 10 =
      [M1Cmd.M1F, M1Cmd.M1F, M1Cmd.M1F] ∧
    on_close false false (fun k => decide (k < 3)) 10 ≠ [] := by
  decide

/-- Claim C9, evaluated at the failing input: a heartbeat tick performs one
direct in-place write of the timestamp into `/tmp/xray_heartbeat` and no
rename; the write-temp-then-rename pattern the claim requires is absent. -/
theorem send_heartbeat_not_atomic :
    send_heartbeat "1700000000.0" = [FileOp.writeFile HEARTBEAT_PATH "1700000000.0"] ∧
    spec_atomic_heartbeat_write (send_heartbeat "1700000000.0") = false := by
  exact ⟨rfl, by decide⟩

end Interface

namespace StepperMotor

theorem stepF_iterate_total (n : ℕ) (s : M3) :
    (motor3_step_forward^[n] s).m3_total_steps = s.m3_total_steps := by
  induction n generalizing s with
  | zero => simp
  | succ n ih => simp [Function.iterate_succ_apply, motor3_step_forward, ih]

theorem rotN_total (n : ℕ) (s : M3) :
    (rotN n s).1.m3_total_steps = s.m3_total_steps + M3_STEPS_45 * n := by
  induction n generalizing s with
  | zero => simp [rotN]
  | succ n ih =>
    simp [rotN, motor3_rotate_45, ih, stepF_iterate_total]
    ring

theorem rotN_stepF_count (n : ℕ) (s : M3) :
    (rotN n s).2.count M3Ev.stepF = M3_STEPS_45 * n := by
  induction n generalizing s with
  | zero => simp [rotN]
  | succ n ih =>
    simp [rotN, motor3_rotate_45, List.count_append, ih, List.count_replicate]
    ring

/-- Claim C5: from the state right after a home (zero accumulated steps), any
sequence of `n` rotate-45 calls issues 512·n forward steps and accumulates
exactly that count; `home()` then issues exactly 512·n backward steps and
zeroes the counter, and an immediately repeated `home()` issues no steps. -/
theorem motor3_home_reverses_accumulated (s : M3) (n : ℕ)
    (hhomed : s.m3_total_steps = 0) :
    (rotN n s).2.count M3Ev.stepF = M3_STEPS_45 * n ∧
    (rotN n s).1.m3_total_steps = M3_STEPS_45 * n ∧
    (motor3_home (rotN n s).1).2.count M3Ev.stepB = M3_STEPS_45 * n ∧
    (motor3_home (rotN n s).1).1.m3_total_steps = 0 ∧
    (motor3_home (motor3_home (rotN n s).1).1).2.count M3Ev.stepB = 0 := by
  have htot := rotN_total n s
  rw [hhomed, Nat.zero_add] at htot
  refine ⟨rotN_stepF_count n s, htot, ?_, ?_, ?_⟩
  · simp [motor3_home, List.count_append, List.count_replicate, htot]
  · simp [motor3_home]
  · simp [motor3_home, List.count_append, List.count_replicate]

/-- Witness for the C5 theorem: one rotate-45 from the homed zero state. -/
theorem motor3_home_reverses_accumulated_witness :
    ((rotN 1 ⟨0, 0⟩).2.count M3Ev.stepF = M3_STEPS_45 * 1 ∧
      (rotN 1 ⟨0, 0⟩).1.m3_total_steps = M3_STEPS_45 * 1 ∧
      (motor3_home (rotN 1 ⟨0, 0⟩).1).2.count M3Ev.stepB = M3_STEPS_45 * 1 ∧
      (motor3_home (rotN 1 ⟨0, 0⟩).1).1.m3_total_steps = 0 ∧
      (motor3_home (motor3_home (rotN 1 ⟨0, 0⟩).1).1).2.count M3Ev.stepB = 0) :=
  motor3_home_reverses_accumulated ⟨0, 0⟩ 1 rfl

end StepperMotor

namespace Xavier

theorem exposeLoop_success (σ : ℕ → Bool) (j n : ℕ)
    (h : (exposeLoop σ j n).1 = true) :
    exposeLoop σ j n = (true, List.replicate n (Act.sleepFor tickMs), n) := by
  induction n generalizing j with
  | zero => rfl
  | succ n ih =>
    by_cases hσ : σ j = true
    · have h' : (exposeLoop σ (j + 1) n).1 = true := by
        rw [exposeLoop] at h
        simpa [hσ] using h
      rw [exposeLoop]
      simp only [hσ, if_true]
      rw [ih (j + 1) h']
      simp [List.replicate_succ]
    · rw [exposeLoop] at h
      simp [hσ] at h

theorem expTicks_bounds (shutterMs : ℤ) (hs : 0 < shutterMs) :
    shutterMs ≤ tickMs * (expTicks shutterMs : ℤ) ∧
    tickMs * (expTicks shutterMs : ℤ) < shutterMs + tickMs := by
  simp only [tickMs, expTicks]
  omega

theorem hvAtAux_nil (clk : ℤ) (hv : Bool) (t : ℤ) : hvAtAux [] clk hv t = hv := rfl

theorem hvAtAux_setHV (b : Bool) (rest : List Act) (clk : ℤ) (hv : Bool) (t : ℤ) :
    hvAtAux (Act.setHV b :: rest) clk hv t =
      hvAtAux rest clk (if clk ≤ t then b else hv) t := rfl

theorem hvAtAux_sleep (d : ℤ) (rest : List Act) (clk : ℤ) (hv : Bool) (t : ℤ) :
    hvAtAux (Act.sleepFor d :: rest) clk hv t = hvAtAux rest (clk + d) hv t := rfl

theorem hvAtAux_setTrigger (b : Bool) (rest : List Act) (clk : ℤ) (hv : Bool) (t : ℤ) :
    hvAtAux (Act.setTrigger b :: rest) clk hv t = hvAtAux rest clk hv t := rfl

theorem hvAtAux_setPreviewLine (b : Bool) (rest : List Act) (clk : ℤ) (hv : Bool) (t : ℤ) :
    hvAtAux (Act.setPreviewLine b :: rest) clk hv t = hvAtAux rest clk hv t := rfl

theorem hvAtAux_setState (s : State) (rest : List Act) (clk : ℤ) (hv : Bool) (t : ℤ) :
    hvAtAux (Act.setState s :: rest) clk hv t = hvAtAux rest clk hv t := rfl

theorem hvAtAux_replicate_sleep (n : ℕ) (rest : List Act) (clk : ℤ) (hv : Bool) (t : ℤ) :
    hvAtAux (List.replicate n (Act.sleepFor tickMs) ++ rest) clk hv t =
      hvAtAux rest (clk + tickMs * n) hv t := by
  induction n generalizing clk with
  | zero => simp
  | succ n ih =>
    rw [List.replicate_succ, List.cons_append, hvAtAux_sleep, ih]
    congr 1
    push_cast
    ring

theorem hvAt_armPrefix (b : Bool) (l : List Act) (t : ℤ) :
    hvAt ((if b = true then [Act.setState State.ARMED] else []) ++ l) t = hvAt l t := by
  cases b <;> rfl

theorem exposeSuccessActs_fromIdle (T : Timing) (N : ℕ) :
    exposeSuccessActs T true N = Act.setState State.ARMED :: exposeSuccessActs T false N := by
  simp [exposeSuccessActs]

theorem hvAt_success_after (T : Timing) (b : Bool) (N : ℕ) (t : ℤ)
    (ht : T.pre_roll_ms + tickMs * (N : ℤ) + T.post_hold_ms < t) :
    hvAt (exposeSuccessActs T b N) t = false := by
  rw [tickMs] at ht
  rw [exposeSuccessActs]
  simp only [List.append_assoc]
  rw [hvAt_armPrefix, hvAt]
  simp only [hvOffActs, List.cons_append, List.nil_append]
  simp only [hvAtAux_setState, hvAtAux_setHV, hvAtAux_sleep, hvAtAux_setTrigger]
  rw [hvAtAux_replicate_sleep]
  simp only [hvAtAux_setState, hvAtAux_setHV, hvAtAux_sleep, hvAtAux_setTrigger,
    hvAtAux_setPreviewLine, hvAtAux_nil]
  simp only [tickMs, hvOffSettleMs]
  split_ifs <;> first | rfl | omega

theorem hvAt_success_before (T : Timing) (b : Bool) (N : ℕ) (t : ℤ)
    (ht : t < 0) :
    hvAt (exposeSuccessActs T b N) t = false := by
  rw [exposeSuccessActs]
  simp only [List.append_assoc]
  rw [hvAt_armPrefix, hvAt]
  simp only [hvOffActs, List.cons_append, List.nil_append]
  simp only [hvAtAux_setState, hvAtAux_setHV, hvAtAux_sleep, hvAtAux_setTrigger]
  rw [hvAtAux_replicate_sleep]
  simp only [hvAtAux_setState, hvAtAux_setHV, hvAtAux_sleep, hvAtAux_setTrigger,
    hvAtAux_setPreviewLine, hvAtAux_nil]
  simp only [tickMs, hvOffSettleMs]
  split_ifs <;> first | rfl | omega

theorem exposeMain_success (T : Timing) (c : Ctrl) (σ : ℕ → Bool) (armActs : List Act)
    (j : ℕ) (shutterMs : ℤ)
    (h : (exposeMain T c σ armActs j shutterMs true).outcome = ExposeOutcome.done true) :
    (exposeMain T c σ armActs j shutterMs true).acts =
        armActs ++ exposeSuccessActs T false (expTicks shutterMs) ∧
    (exposeMain T c σ armActs j shutterMs true).ctrl =
        ⟨State.IDLE, ⟨false, false, false⟩, none⟩ := by
  by_cases hσ : σ j = true
  · by_cases hl : (exposeLoop σ (j + 1) (expTicks shutterMs)).1 = true
    · rw [exposeMain]
      rw [exposeLoop_success σ (j + 1) (expTicks shutterMs) hl]
      simp [hσ, exposeSuccessActs, hvOffActs, List.append_assoc]
    · rw [exposeMain] at h
      simp [hσ, hl] at h
  · rw [exposeMain] at h
    simp [hσ] at h

/-- Claim C3: every `expose(shutter_s)` call that returns True performed, in
this order: the state change to EXPOSE, HV energized, the configured pre-roll
sleep, trigger asserted, `⌈shutter/tick⌉` polled ticks (so the trigger window
equals `shutter_s` to within one 5 ms tick, and the pre-roll and post-hold
sleeps equal — hence are at least — their configured values), trigger
cleared, the configured post-hold sleep, HV de-energized, return to IDLE;
and replaying the trace shows HV OFF at every time strictly after the
post-hold end and strictly before the pre-roll start (time 0). -/
theorem expose_success_profile (T : Timing) (c : Ctrl) (σ : ℕ → Bool) (i : ℕ)
    (shutterMs : ℤ)
    (h : (expose T c σ i shutterMs true).outcome = ExposeOutcome.done true) :
    0 < shutterMs ∧
    (expose T c σ i shutterMs true).acts =
      exposeSuccessActs T (decide (c.state = State.IDLE)) (expTicks shutterMs) ∧
    shutterMs ≤ tickMs * (expTicks shutterMs : ℤ) ∧
    tickMs * (expTicks shutterMs : ℤ) < shutterMs + tickMs ∧
    (expose T c σ i shutterMs true).ctrl =
      ⟨State.IDLE, ⟨false, false, false⟩, none⟩ ∧
    (∀ t : ℤ, T.pre_roll_ms + tickMs * (expTicks shutterMs : ℤ) + T.post_hold_ms < t →
      hvAt (expose T c σ i shutterMs true).acts t = false) ∧
    (∀ t : ℤ, t < 0 → hvAt (expose T c σ i shutterMs true).acts t = false) := by
  by_cases h1 : shutterMs ≤ 0
  · rw [expose] at h
    simp [h1] at h
  by_cases h2 : c.state = State.FAULT
  · rw [expose] at h
    simp [h1, h2] at h
  by_cases h3 : c.state = State.ARMED ∨ c.state = State.IDLE
  case neg =>
    rw [expose] at h
    simp [h1, h2, h3] at h
  by_cases h4 : σ i = true
  case neg =>
    rw [expose] at h
    simp [h1, h2, h3, h4] at h
  have h1' : 0 < shutterMs := by omega
  obtain ⟨hb1, hb2⟩ := expTicks_bounds shutterMs h1'
  by_cases h5 : c.state = State.IDLE
  · by_cases h6 : σ (i + 1) = true
    case neg =>
      rw [expose] at h
      simp [h1, h2, h3, h4, h5, h6] at h
    have hE : expose T c σ i shutterMs true =
        exposeMain T { c with state := State.ARMED } σ [Act.setState State.ARMED] (i + 2)
          shutterMs true := by
      rw [expose]
      simp [h1, h2, h3, h4, h5, h6]
    rw [hE] at h
    obtain ⟨hA, hC⟩ := exposeMain_success T _ σ _ _ shutterMs h
    rw [hE]
    refine ⟨h1', ?_, hb1, hb2, hC, ?_, ?_⟩
    · rw [hA]
      simp [h5, exposeSuccessActs_fromIdle]
    · intro t ht
      rw [hA, List.singleton_append]
      exact hvAt_success_after T false (expTicks shutterMs) t ht
    · intro t ht
      rw [hA, List.singleton_append]
      exact hvAt_success_before T false (expTicks shutterMs) t ht
  · have h5' : c.state = State.ARMED := h3.resolve_right h5
    have hE : expose T c σ i shutterMs true = exposeMain T c σ [] (i + 1) shutterMs true := by
      rw [expose]
      simp [h1, h2, h3, h4, h5, h5']
    rw [hE] at h
    obtain ⟨hA, hC⟩ := exposeMain_success T _ σ _ _ shutterMs h
    rw [hE]
    refine ⟨h1', ?_, hb1, hb2, hC, ?_, ?_⟩
    · rw [hA]
      simp [h5]
    · intro t ht
      rw [hA, List.nil_append]
      exact hvAt_success_after T false (expTicks shutterMs) t ht
    · intro t ht
      rw [hA, List.nil_append]
      exact hvAt_success_before T false (expTicks shutterMs) t ht

/-- Witness for the C3 theorem: a 10 ms shutter from the freshly constructed
controller with every interlock poll ok; the call succeeds, returns to IDLE
with all lines low, and HV reads OFF at t = 2000 ms, well after the
100 + 10 + 150 ms window. -/
theorem expose_success_profile_witness :
    (expose ⟨100, 150⟩ initCtrl (fun _ => true) 0 10 true).outcome =
        ExposeOutcome.done true ∧
    (0:ℤ) < 10 ∧
    (expose ⟨100, 150⟩ initCtrl (fun _ => true) 0 10 true).ctrl =
      ⟨State.IDLE, ⟨false, false, false⟩, none⟩ ∧
    hvAt (expose ⟨100, 150⟩ initCtrl (fun _ => true) 0 10 true).acts 2000 = false := by
  have h : (expose ⟨100, 150⟩ initCtrl (fun _ => true) 0 10 true).outcome =
      ExposeOutcome.done true := by decide
  have hp := expose_success_profile ⟨100, 150⟩ initCtrl (fun _ => true) 0 10 h
  exact ⟨h, hp.1, hp.2.2.2.2.1, hp.2.2.2.2.2.1 2000 (by decide)⟩

end Xavier
